import Mathlib

/-!
Verification of the contract-matching system's specification against a
shallow Lean embedding of its Python source.

Conventions used throughout:
* Python numbers (floats / Decimals) are modelled as `ℚ`; the comparisons
  in the source are order comparisons that `ℚ` reproduces exactly.
* Python `None` is `Option.none`; truthiness of optional strings and
  numbers is modelled explicitly where the source relies on it.
* Timestamps are modelled as integers (days for the renewal radar, an
  abstract integer timestamp elsewhere); only equality / max / subtraction
  of dates occur in the verified code paths.
* Python string operations are modelled on the character list of the
  string (`String.data`) so that every definition evaluates inside the
  kernel; single-character `replace`, `strip`, `lower`, `startswith` and
  substring membership are reproduced exactly for the call sites at hand.
* `round(x, k)` from Python is modelled with Mathlib's `round` after
  scaling; Python rounds half to even, Mathlib half up, but on every
  argument produced by the verified code paths (scaled day counts divided
  by 365.25) an exact half-integer is impossible, so the two agree.
-/

namespace JanetContracts

/-! ## Python-faithful string primitives -/

/-- Python `str.lower()` (charwise). -/
def lowerStr (s : String) : String := ⟨s.data.map Char.toLower⟩

/-- Python `str.strip()`: drop whitespace from both ends. -/
def stripStr (s : String) : String :=
  ⟨((s.data.dropWhile Char.isWhitespace).reverse.dropWhile Char.isWhitespace).reverse⟩

/-- Python `str.replace(" ", "-")`: single-character replacement is a
charwise map. -/
def replaceSpacesWithHyphens (s : String) : String :=
  ⟨s.data.map (fun c => if c = ' ' then '-' else c)⟩

/-- Python `needle in hay` on strings: substring containment. -/
def containsStr (hay needle : String) : Bool :=
  (List.range (hay.data.length + 1)).any (fun i => needle.data.isPrefixOf (hay.data.drop i))

/-- Python `code.startswith(p)`. -/
def startsWithStr (s pre : String) : Bool := pre.data.isPrefixOf s.data

/-- Python truthiness of an optional string (`None` and `""` are falsy). -/
def truthyStr : Option String → Bool
  | some s => s ≠ ""
  | none => false

/-- Python truthiness of an optional number (`None` and `0` are falsy). -/
def truthyQ : Option ℚ → Bool
  | some q => q ≠ 0
  | none => false

/-! ## Buyer normalisation (`app/services/ingestion/normalizer.py`) -/

/-- Embedding of `Normalizer.normalize_buyer`: the raw buyer name is taken
from the record (defaulting to `"Unknown Buyer"`), stripped, and the slug
is the lowercase stripped name with each `' '` replaced by `'-'`.
Returns `(canonical_name, slug)`. -/
def normalizeBuyer (rawName : Option String) : String × String :=
  let raw := rawName.getD ("Unknown Buyer")
  let canonicalName := stripStr raw
  let slug := replaceSpacesWithHyphens (lowerStr canonicalName)
  (canonicalName, slug)

/-! ## Change detection (`app/services/alerts/alert_service.py`) -/

/-- The stored columns of a `Notice` that `AlertService.check_for_changes`
reads.  Deadlines are abstract timestamps (only compared for equality),
values are `ℚ`, the notice type is a nullable string. -/
structure StoredNotice where
  deadlineDate : Option ℤ
  valueAmount : Option ℚ
  noticeType : Option String
  deriving Repr, DecidableEq

/-- The incoming `new_data` dictionary handed to `check_for_changes`. -/
structure NewNoticeData where
  deadlineDate : Option ℤ
  valueAmount : Option ℚ
  noticeType : Option String
  deriving Repr, DecidableEq

/-- The change set assembled by `check_for_changes`: for each material
change the old/new pair is recorded. -/
structure ChangeSet where
  deadline : Option (ℤ × ℤ)
  value : Option (ℚ × ℚ)
  typeChange : Option (Option String × String)
  deriving Repr, DecidableEq

/-- Embedding of the body of `AlertService.check_for_changes`, before the
final `return changes if changes else None` wrapping.
* deadline: flagged when both sides are non-null and differ;
* value: flagged when both sides are present and
  `abs (new - old) / old > 0.10` (the percentage is `0` when `old = 0`,
  mirroring the source's guard against division by zero);
* type: flagged when the new type is truthy (present and non-empty) and
  differs from the stored type. -/
def detectChanges (old : StoredNotice) (newData : NewNoticeData) : ChangeSet :=
  let deadline :=
    match newData.deadlineDate, old.deadlineDate with
    | some nd, some od => if nd ≠ od then some (od, nd) else none
    | _, _ => none
  let value :=
    match newData.valueAmount, old.valueAmount with
    | some nv, some ov =>
        let diffPct := if ov ≠ 0 then |nv - ov| / ov else 0
        if diffPct > 1/10 then some (ov, nv) else none
    | _, _ => none
  let typeChange :=
    match newData.noticeType with
    | some nt => if nt ≠ "" ∧ old.noticeType ≠ some nt then some (old.noticeType, nt) else none
    | none => none
  ⟨deadline, value, typeChange⟩

/-- The source returns `None` in place of an empty change map. -/
def checkForChanges (old : StoredNotice) (newData : NewNoticeData) : Option ChangeSet :=
  let c := detectChanges old newData
  if c.deadline = none ∧ c.value = none ∧ c.typeChange = none then none else some c

/-- The `new_data` dictionary carrying exactly the stored values of a
notice (used to state the self-diff law). -/
def selfData (old : StoredNotice) : NewNoticeData :=
  ⟨old.deadlineDate, old.valueAmount, old.noticeType⟩

/-! ## Renewal Radar (`app/services/matching/renewal_enrichment.py`) -/

/-- An entry of `awards[].suppliers[]` in a stored OCDS release. -/
structure Supplier where
  name : Option String
  deriving Repr, DecidableEq

/-- An entry of `awards[]` in a stored OCDS release. -/
structure Award where
  suppliers : List Supplier
  deriving Repr, DecidableEq

/-- A row returned by `_get_buyer_history`: a historical notice's
publication date (in days) and the award section of its raw release. -/
structure HistRow where
  publicationDate : Option ℤ
  awards : List Award
  deriving Repr, DecidableEq

/-- The dictionary returned by `RenewalEnrichmentService.enrich`. -/
structure RadarResult where
  buyerSeenBefore : Bool
  historicalContractCount : ℕ
  incumbent : Option String
  lastAwardedDate : Option ℤ
  estimatedCycleYears : Option ℕ
  uniqueSuppliers : List String
  radarSummary : Option String
  deriving Repr, DecidableEq

/-- The ordered, de-duplicated union of `awards[].suppliers[].name` over
the history rows (`if name and name not in suppliers: suppliers.append`). -/
def collectSuppliers (history : List HistRow) : List String :=
  history.foldl (fun acc row =>
    row.awards.foldl (fun acc award =>
      award.suppliers.foldl (fun acc s =>
        match s.name with
        | some nm => if nm ≠ "" ∧ nm ∉ acc then acc ++ [nm] else acc
        | none => acc) acc) acc) []

/-- Python `years_since = round(days_since / 365.25, 1)` (365.25 = 1461/4).
Python rounds half to even; for integer day counts the scaled quotient
`40·d/1461` is never an exact half-integer, so Mathlib's `round` agrees. -/
def yearsSinceOf (daysSince : ℤ) : ℚ := ((round ((daysSince : ℚ) / (1461/4) * 10) : ℤ) : ℚ) / 10

/-- The candidate cycle lengths scanned in order by the source. -/
def cycleCandidates : List ℕ := [1, 2, 3, 5]

/-- The `for cycle in [1, 2, 3, 5]: if abs(years_since - cycle) < 0.75 …
break` loop: the first candidate within 0.75 of `yearsSince`, if any. -/
def estimateCycleLoop (yearsSince : ℚ) : Option ℕ :=
  cycleCandidates.find? (fun c => decide (|yearsSince - (c : ℚ)| < 3/4))

/-- Embedding of `_generate_summary`.  Date formatting is abstracted (the
day number is printed instead of a month string); everything else mirrors
the source line by line. -/
def generateSummary (r : RadarResult) : String :=
  let incumbentLine :=
    match r.incumbent with
    | some inc => "Incumbent: **" ++ inc ++ "**"
    | none => "No clear incumbent identified in history."
  let dateLines :=
    match r.lastAwardedDate with
    | some d => ["Last awarded: " ++ toString d ++ " (est. " ++
        (match r.estimatedCycleYears with | some c => toString c | none => "None") ++ "-year cycle)"]
    | none => []
  let competitorLines :=
    if r.uniqueSuppliers.length > 1 then
      ["Other competitors seen: " ++ String.intercalate (", ") ((r.uniqueSuppliers.drop 1).take 3)]
    else []
  let countLine :=
    toString r.historicalContractCount ++ " historical contract(s) found for this buyer in this sector."
  String.intercalate ("\n") ([incumbentLine] ++ dateLines ++ competitorLines ++ [countLine])

/-- Embedding of `RenewalEnrichmentService.enrich`.  The database lookup
`_get_buyer_history` is passed in as `history`; `nowDays` stands for
`datetime.now(UTC)` in days.  The source wraps its body in a `try/except`
that converts any exception into a summary string, so the function is
total; this embedding is total by construction (while the body below
models the non-raising path faithfully). -/
def enrich (buyerId : Option String) (history : List HistRow) (nowDays : ℤ) : RadarResult :=
  let base : RadarResult :=
    ⟨false, 0, none, none, none, [], none⟩
  if ¬ truthyStr buyerId then
    { base with radarSummary := some ("No buyer ID — cannot perform historical lookup.") }
  else if history.isEmpty then
    let msg := "⚪ New buyer — no prior history in this sector. First-mover advantage possible."
    { base with radarSummary := some msg }
  else
    let suppliers := collectSuppliers history
    let dates := history.filterMap (·.publicationDate)
    let r1 := { base with
      buyerSeenBefore := true,
      historicalContractCount := history.length,
      uniqueSuppliers := suppliers.take 5,
      incumbent := suppliers.head? }
    let r2 :=
      match dates.max? with
      | some lastDate =>
          let ys := yearsSinceOf (nowDays - lastDate)
          { r1 with lastAwardedDate := some lastDate,
                    estimatedCycleYears := some ((estimateCycleLoop ys).getD 3) }
      | none => r1
    { r2 with radarSummary := some (generateSummary r2) }

/-! ## NoticeMatch rows, alerts, alert processing -/

/-- The `risk_flags` JSONB map as populated by the engine: the two risk
message keys, the suitability metadata booleans and the optional renewal
radar attachment. -/
structure RiskFlags where
  tupe : Option String
  safeguarding : Option String
  isVcse : Bool
  isSme : Bool
  renewalRadar : Option RadarResult
  deriving Repr, DecidableEq

/-- A `notice_match` row.  Scores are `ℚ`; the Tier-2 columns
(`deep_verdict`, `deep_rationale`) are nullable strings. -/
structure DbMatchRow where
  orgId : String
  noticeId : String
  score : ℚ
  scoreSemantic : ℚ
  scoreDomain : ℚ
  scoreGeo : ℚ
  scoreTheme : ℚ
  feedbackStatus : String
  riskFlags : RiskFlags
  checklist : List String
  recommendationReasons : List String
  deepVerdict : Option String
  deepRationale : Option String
  deriving Repr, DecidableEq

/-- An `alert` row as created by `AlertService.create_alert` (the opaque
`details` map is display-only and omitted). -/
structure AlertRec where
  orgId : String
  noticeId : String
  alertType : String
  message : String
  severity : String
  deriving Repr, DecidableEq

/-- The human messages built inside `AlertService.process_change`, one per
change key, in the dictionary's insertion order (deadline, value, type).
Number/date formatting is abstracted to `toString`; the source formats the
same data with f-strings. -/
def changeMsgs (c : ChangeSet) : List String :=
  (match c.deadline with
   | some (od, nd) => ["ALERT: Deadline changed from " ++ toString od ++ " to " ++ toString nd ++ "."]
   | none => []) ++
  (match c.value with
   | some (ov, nv) => ["ALERT: Value changed by " ++
        toString (if ov ≠ 0 then |nv - ov| / ov * 100 else 0) ++ "% (Now £" ++ toString nv ++ ")."]
   | none => []) ++
  (match c.typeChange with
   | some (_, nt) => ["ALERT: Notice type changed to " ++ nt ++ "."]
   | none => [])

/-- The number of keys present in a change set. -/
def numChangeKeys (c : ChangeSet) : ℕ :=
  (if c.deadline.isSome then 1 else 0) +
  (if c.value.isSome then 1 else 0) +
  (if c.typeChange.isSome then 1 else 0)

/-- The body of the `for match in matches` loop of
`AlertService.process_change`: appends one message per change key to the
match's recommendation reasons, creates one `MATERIAL_CHANGE` alert per
message, and demotes a GO verdict to REVIEW when a value change occurred. -/
def processOneMatch (noticeOcid : String) (changes : ChangeSet) (m : DbMatchRow) :
    DbMatchRow × List AlertRec :=
  let msgs := changeMsgs changes
  let reasons := m.recommendationReasons ++ msgs
  let alerts := msgs.map (fun msg => ⟨m.orgId, noticeOcid, "MATERIAL_CHANGE", msg, "warning"⟩)
  let status := if changes.value.isSome ∧ m.feedbackStatus = "GO" then ("REVIEW") else m.feedbackStatus
  ({ m with feedbackStatus := status, recommendationReasons := reasons }, alerts)

/-- Embedding of `AlertService.process_change` over the matches tied to
the notice: returns the updated rows and all created alerts. -/
def processChange (noticeOcid : String) (changes : ChangeSet) (rows : List DbMatchRow) :
    List DbMatchRow × List AlertRec :=
  (rows.map (fun m => (processOneMatch noticeOcid changes m).1),
   rows.flatMap (fun m => (processOneMatch noticeOcid changes m).2))

/-! ## Tier-2 deep review (`scripts/trigger_deep_review.py`) -/

/-- One value of the LLM's JSON response map: the `verdict` and
`rationale` keys, each possibly absent.  (A JSON `null` value is
identified with absence, as nothing in the verified path distinguishes
them.) -/
structure LLMEntry where
  verdict : Option String
  rationale : Option String
  deriving Repr, DecidableEq

/-- Python truthiness of a response-map entry (`if res:`): an empty
dictionary is falsy and is skipped exactly like a missing key. -/
def entryTruthy (e : LLMEntry) : Bool := e.verdict.isSome || e.rationale.isSome

/-- Embedding of the write-back loop of `trigger_deep_review`: for each
selected match, if the response map has a truthy entry for its OCID, set
`deep_verdict` to the entry's verdict (defaulting to `"FAIL"` when the
`verdict` key is absent) and `deep_rationale` to the entry's rationale;
otherwise leave the row untouched.  A run-wide LLM failure surfaces as an
empty `results` map (`batch_analyze_matches` returns `{}` in its
exception handler), so no row is modified. -/
def applyDeepResults (rows : List DbMatchRow) (results : List (String × LLMEntry)) :
    List DbMatchRow :=
  rows.map fun m =>
    match results.find? (fun r => r.1 == m.noticeId) with
    | some (_, e) =>
        if entryTruthy e then
          { m with deepVerdict := some (e.verdict.getD ("FAIL")), deepRationale := e.rationale }
        else m
    | none => m

/-! ## Matching engine (`app/services/matching/engine.py`) -/

/-- A `suitability` object on a tender or lot.  In the source a missing
key and an empty dictionary `{}` behave identically (both are falsy and
yield no flags), so both are modelled as `none` at the use sites. -/
structure Suitability where
  vcse : Bool
  sme : Bool
  deriving Repr, DecidableEq

/-- A `tender.lots[]` entry: its suitability object and its `value`
object's `amountGross` / `amount` fields. -/
structure Lot where
  suitability : Option Suitability
  valueAmountGross : Option ℚ
  valueAmount : Option ℚ
  deriving Repr, DecidableEq

/-- A `tender.items[].deliveryAddresses[]` entry. -/
structure DeliveryAddress where
  region : Option String
  deriving Repr, DecidableEq

/-- A `tender.items[]` entry (only the delivery addresses are read by the
engine; the item classifications are already folded into `cpv_codes`). -/
structure TenderItem where
  deliveryAddresses : List DeliveryAddress
  deriving Repr, DecidableEq

/-- A `parties[]` entry of the raw release. -/
structure Party where
  roles : List String
  addressRegion : Option String
  deriving Repr, DecidableEq

/-- The columns and raw-JSON paths of a `Notice` that the engine reads.
The embedding vectors are not represented: the semantic cosine score
(lines 246–255 of the engine, floating-point numpy math) is abstracted as
an oracle parameter of the engine functions. -/
structure Notice where
  ocid : String
  title : String
  description : String
  buyerId : Option String
  valueAmount : Option ℚ
  suitability : Option Suitability
  lots : List Lot
  items : List TenderItem
  parties : List Party
  cpvCodes : List String
  ukcatCodes : List String
  isArchived : Option Bool
  mainProcurementCategory : Option String
  deriving Repr, DecidableEq

/-- The `service_regions` column, which the source stores either as a
region list or as an object with a `regions` key. -/
inductive RegionsField where
  | absent
  | asList (rs : List String)
  | asDict (rs : List String)
  deriving Repr, DecidableEq

/-- The columns of a `ServiceProfile` that the engine reads (the profile
embedding is abstracted together with the semantic score). -/
structure ServiceProfile where
  orgId : String
  name : String
  latestIncome : Option ℚ
  serviceRegions : RegionsField
  inferredCpvCodes : List String
  exclusionKeywords : List String
  ukcatThemes : List String
  deriving Repr, DecidableEq

/-- Embedding of `MatchingEngine._extract_charity_regions`: a dict reads
its `regions` key (default `[]`), anything else is `service_regions or []`. -/
def extractCharityRegions : RegionsField → List String
  | .absent => []
  | .asList rs => rs
  | .asDict rs => rs

/-- Embedding of `MatchingEngine.THEME_MAPPING` (charity themes → UKCAT
code stems). -/
def THEME_MAPPING : List (String × String) := [
  ("Accommodation/housing", "HO"),
  ("Arts/culture/heritage/science", "AR"),
  ("Disability", "BE"),
  ("Economic/community Development/employment", "EC"),
  ("Education/training", "ED"),
  ("Environment/conservation/heritage", "EN"),
  ("General Charitable Purposes", "CA"),
  ("Human Rights/religious Or Racial Harmony/equality Or Diversity", "SO"),
  ("Overseas Aid/famine Relief", "EC103"),
  ("The Advancement Of Health Or Saving Of Lives", "HE"),
  ("The Prevention Or Relief Of Poverty", "BE")]

/-- Lookup `THEME_MAPPING.get(theme)`. -/
def themeLookup (theme : String) : Option String :=
  (THEME_MAPPING.find? (fun kv => kv.1 == theme)).map (·.2)

/-- Embedding of `MatchingEngine._is_national_charity`: income strictly
above £5M (guarded by Python truthiness of the income) or an explicit
national region. -/
def isNationalCharity (p : ServiceProfile) : Bool :=
  (match p.latestIncome with
   | some inc => decide (inc ≠ 0) && decide (inc > 5000000)
   | none => false) ||
  (extractCharityRegions p.serviceRegions).any
    (fun r => (["national", "united kingdom", "uk"] : List String).contains (lowerStr r))

/-- The engine's `charity_ukcat_codes` set: the profile's themes mapped
through `THEME_MAPPING`, unmapped themes dropped. -/
def charityUkcatCodes (p : ServiceProfile) : Finset String :=
  (p.ukcatThemes.filterMap themeLookup).toFinset

/-- Python `a or b` on optional numbers (`None` and `0` are falsy). -/
def pyOrQ (a b : Option ℚ) : Option ℚ :=
  match a with
  | some x => if x = 0 then b else some x
  | none => b

/-- The lot value `float(lot.get("value", {}).get("amountGross") or
lot.get("value", {}).get("amount") or 0)`. -/
def lotVal (lot : Lot) : ℚ := (pyOrQ lot.valueAmountGross lot.valueAmount).getD 0

/-- Reading `.get("vcse")` through a possibly-missing suitability object. -/
def suitVcse (s : Option Suitability) : Bool := (s.map (·.vcse)).getD false

/-- Reading `.get("sme")` through a possibly-missing suitability object. -/
def suitSme (s : Option Suitability) : Bool := (s.map (·.sme)).getD false

/-- Stage 2, the VCSE/SME gate: if the tender or any lot declares a
(truthy) suitability object, at least one of the `vcse`/`sme` flags must
be set; otherwise the candidate passes with a neutral reason.  Returns
`none` on rejection, otherwise the flags and the appended reason. -/
def vcseGate (n : Notice) : Option (Bool × Bool × List String) :=
  let isVcse := suitVcse n.suitability || n.lots.any (fun l => suitVcse l.suitability)
  let isSme := suitSme n.suitability || n.lots.any (fun l => suitSme l.suitability)
  let declares := n.suitability.isSome || n.lots.any (fun l => l.suitability.isSome)
  if !isVcse && !isSme && declares then none
  else some (isVcse, isSme,
    [if isVcse then ("Explicitly marked for VCSE suitability.")
     else if isSme then ("Marked for SME suitability.")
     else ("Generic suitability (No specific SME/VCSE flags).")])

/-- The `suitable_lots` list of stage 3: lots whose value (`amountGross`
else `amount`, else 0) is at most 40% of the charity's income, collected
only when the income is positive. -/
def suitableLots (income : ℚ) (n : Notice) : List Lot :=
  if n.lots.isEmpty then []
  else n.lots.filter (fun lot => decide (income > 0) && decide (lotVal lot ≤ income * (2/5)))

/-- The stage-3 rejection condition: no suitable lot, positive income and
total value strictly above 40% of income.  (0.4 is the exact rational
2/5; the source's floating-point product is idealised.) -/
def valueGateRejects (income : ℚ) (n : Notice) : Bool :=
  (suitableLots income n).isEmpty && decide (income > 0) &&
    decide (n.valueAmount.getD 0 > income * (2/5))

/-- Stage 3, the value gate: `none` on rejection, otherwise the appended
reasons. -/
def valueGate (income : ℚ) (n : Notice) : Option (List String) :=
  if valueGateRejects income n then none
  else some (
    if !(suitableLots income n).isEmpty then
      ["Contains " ++ toString (suitableLots income n).length ++ "/" ++
        toString n.lots.length ++ " suitable lots by value."]
    else if truthyQ n.valueAmount then ["Tender value is within 40% of annual income."]
    else [])

/-- The notice's regions: lowercased truthy regions of
`tender.items[].deliveryAddresses[]`, falling back to the buyer parties'
address regions when no item region was found. -/
def noticeRegions (n : Notice) : List String :=
  let fromItems := n.items.flatMap (fun itm =>
    itm.deliveryAddresses.filterMap (fun a =>
      match a.region with
      | some r => if r ≠ "" then some (lowerStr r) else none
      | none => none))
  if fromItems.isEmpty then
    n.parties.filterMap (fun pty =>
      if pty.roles.contains ("buyer") then
        match pty.addressRegion with
        | some r => if r ≠ "" then some (lowerStr r) else none
        | none => none
      else none)
  else fromItems

/-- Whether `set(notice_regions) & set(charity_regions)` is non-empty. -/
def geoOverlapB (noticeRs charityRs : List String) : Bool :=
  noticeRs.any (fun r => charityRs.contains r)

/-- Stage 4, the geo gate: the geo score, or `none` when a local charity
faces a notice with declared regions and no overlap. -/
def geoGate (isNational : Bool) (charityRs noticeRs : List String) : Option ℚ :=
  if isNational then
    some (if geoOverlapB noticeRs charityRs || noticeRs.isEmpty then 1 else 1/4)
  else if !noticeRs.isEmpty && geoOverlapB noticeRs charityRs then some 1
  else if noticeRs.isEmpty then some (1/2)
  else none

/-- The set of 4-character stems (`c[:4]`) of a CPV code list. -/
def cpvStems (codes : List String) : Finset String :=
  (codes.map (fun c => (⟨c.data.take 4⟩ : String))).toFinset

/-- Stage 5, the CPV gate: when both sides carry CPV codes their
4-character stem sets must intersect (domain score 1), otherwise the
neutral score 0.5. -/
def cpvGate (charityStems noticeStems : Finset String) : Option ℚ :=
  if charityStems.Nonempty ∧ noticeStems.Nonempty then
    if noticeStems ∩ charityStems = ∅ then none else some 1
  else some (1/2)

/-- The exclusion-keyword scan: the (already lowercased) profile keywords
that occur as substrings of the lowercased title+description. -/
def exclusionMatched (kwsLower : List String) (n : Notice) : List String :=
  if kwsLower.isEmpty then []
  else
    let content := lowerStr (n.title ++ " " ++ n.description)
    kwsLower.filter (fun kw => containsStr content kw)

/-- Stage 6's `theme_matches`: the charity theme stems that some notice
UKCAT code starts with. -/
def themeMatchSet (charityCodes noticeUkcat : Finset String) : Finset String :=
  charityCodes.filter (fun stem => ∃ code ∈ noticeUkcat, startsWithStr code stem = true)

/-- Stage 6's theme score: matched stems over all charity stems, or the
neutral 0.5 for a charity with no (mapped) themes. -/
def scoreThemeCalc (charityCodes noticeUkcat : Finset String) : ℚ :=
  if charityCodes.Nonempty then
    ((themeMatchSet charityCodes noticeUkcat).card : ℚ) / (charityCodes.card : ℚ)
  else 1/2

/-- The verdict computation (engine lines 283–291): GO above 0.65, TUPE
forces REVIEW, a persisted Tier-2 verdict overrides everything. -/
def statusCalc (totalScore : ℚ) (riskTupe : Option String) (deepV : Option String) : String :=
  let s0 := if totalScore > 13/20 then ("GO") else ("REVIEW")
  let s1 := if truthyStr riskTupe then ("REVIEW") else s0
  if deepV = some ("PASS") then ("GO")
  else if deepV = some ("FAIL") then ("NO-GO")
  else s1

/-- Python `Decimal(str(round(x, 4)))`: rounding a sub-score to 4 decimals.
(Python rounds half to even, Mathlib half up; no claim depends on the
value at an exact tie.) -/
def roundTo4 (x : ℚ) : ℚ := (((round (x * 10000) : ℤ) : ℚ)) / 10000

/-- The lookup `existing_matches.get(notice.ocid)`, then `.deep_verdict if existing
else None`. -/
def deepVerdictOf (existing : List DbMatchRow) (ocid : String) : Option String :=
  (existing.find? (fun em => em.noticeId == ocid)).bind (·.deepVerdict)

/-- Stage-1 SQL prefilter: not archived (false or NULL) and
`tender.mainProcurementCategory` lowercases to `"services"`. -/
def isCandidate (n : Notice) : Bool :=
  !(n.isArchived == some true) &&
  (match n.mainProcurementCategory with
   | some c => lowerStr c == "services"
   | none => false)

/-- The per-candidate body of `MatchingEngine.calculate_matches`
(stages 2–7): `none` when a hard gate discards the candidate, otherwise
the `NoticeMatch` record appended to `matches_to_write` (whose Tier-2
columns are unset).  `semScore` stands for the computed `score_semantic`
(numpy cosine with clamp, or 0.0 when an embedding is missing); `radar`
stands for `self.radar_service.enrich(notice)`. -/
def computeMatch (p : ServiceProfile) (existing : List DbMatchRow)
    (semScore : ℚ) (radar : RadarResult) (n : Notice) : Option DbMatchRow :=
  let charityRegions := (extractCharityRegions p.serviceRegions).map lowerStr
  let charityStems := cpvStems p.inferredCpvCodes
  let exclusionKws := p.exclusionKeywords.map lowerStr
  let charityCodes := charityUkcatCodes p
  let charityIncome := p.latestIncome.getD 0
  match vcseGate n with
  | none => none
  | some (isVcse, isSme, reasons2) =>
  match valueGate charityIncome n with
  | none => none
  | some reasons3 =>
  let nRegions := noticeRegions n
  match geoGate (isNationalCharity p) charityRegions nRegions with
  | none => none
  | some scoreGeo =>
  let geoReason := "Geographic Alignment: " ++
    (if geoOverlapB nRegions charityRegions then ("Local Match") else ("National Reach"))
  match cpvGate charityStems (cpvStems n.cpvCodes) with
  | none => none
  | some scoreDomain =>
  let cpvReason := "Sector (CPV) alignment confirmed at prefix level."
  if !(exclusionMatched exclusionKws n).isEmpty then none
  else
    let noticeUkcat := n.ukcatCodes.toFinset
    let scoreTheme := scoreThemeCalc charityCodes noticeUkcat
    -- the joined stem list of the source's message is abstracted
    let themeReasons :=
      if (themeMatchSet charityCodes noticeUkcat).Nonempty then ["Thematic overlap: ..."] else []
    let totalScore := semScore * (40/100) + scoreTheme * (30/100) +
      scoreDomain * (20/100) + scoreGeo * (10/100)
    let textLc := lowerStr (n.title ++ " " ++ n.description)
    let riskTupe := if containsStr textLc ("tupe") then some ("Staff transfer (TUPE) detected.") else none
    let riskSafe :=
      if containsStr textLc ("safeguarding") then some ("Review safeguarding requirements.") else none
    let radarFlag := if radar.buyerSeenBefore then some radar else none
    let radarReasons :=
      if radar.buyerSeenBefore then
        ["Historical data found for this buyer/sector - strategy enriched."]
      else []
    let deepV := deepVerdictOf existing n.ocid
    let status := statusCalc totalScore riskTupe deepV
    let statusReasons :=
      if deepV = some ("PASS") then ["Status forced to GO via Tier 2 PASS verdict."]
      else if deepV = some ("FAIL") then ["Status forced to NO-GO via Tier 2 FAIL verdict."]
      else []
    some {
      orgId := p.orgId
      noticeId := n.ocid
      score := totalScore
      scoreSemantic := roundTo4 semScore
      scoreDomain := roundTo4 scoreDomain
      scoreGeo := roundTo4 scoreGeo
      scoreTheme := roundTo4 scoreTheme
      feedbackStatus := status
      riskFlags := ⟨riskTupe, riskSafe, isVcse, isSme, radarFlag⟩
      checklist := []
      recommendationReasons := reasons2 ++ reasons3 ++ [geoReason] ++ [cpvReason] ++
        themeReasons ++ radarReasons ++ statusReasons
      deepVerdict := none
      deepRationale := none }

/-- The `matches_to_write` list: every stage-1 candidate surviving the
funnel, in notice order. -/
def computedRecords (p : ServiceProfile) (existing : List DbMatchRow) (notices : List Notice)
    (semScore : Notice → ℚ) (radar : Notice → RadarResult) : List DbMatchRow :=
  (notices.filter isCandidate).filterMap (fun n => computeMatch p existing (semScore n) (radar n) n)

/-- The surgical update of an existing row (engine lines 316–327): only
the mechanical fields are copied from the freshly computed record;
`deep_verdict` and `deep_rationale` remain untouched. -/
def applyMechanical (em m : DbMatchRow) : DbMatchRow :=
  { em with
    score := m.score
    scoreSemantic := m.scoreSemantic
    scoreDomain := m.scoreDomain
    scoreGeo := m.scoreGeo
    scoreTheme := m.scoreTheme
    feedbackStatus := m.feedbackStatus
    riskFlags := m.riskFlags
    checklist := m.checklist
    recommendationReasons := m.recommendationReasons }

/-- The bulk merge and stale-row cleanup (engine lines 309–335): an
existing row matched by a new record is surgically updated; an unmatched
existing row is deleted only when its `deep_verdict` is null; new records
without an existing row are inserted. -/
def mergeMatches (existing newRecs : List DbMatchRow) : List DbMatchRow :=
  let updatedExisting := existing.filterMap (fun em =>
    match newRecs.find? (fun m => m.noticeId == em.noticeId) with
    | some m => some (applyMechanical em m)
    | none => if em.deepVerdict = none then none else some em)
  let added := newRecs.filter (fun m => !(existing.any (fun em => em.noticeId == m.noticeId)))
  updatedExisting ++ added

/-- Embedding of `MatchingEngine.calculate_matches` for one profile: the
final set of `notice_match` rows committed for that profile, given the
snapshot of existing rows and candidate notices. -/
def calculateMatches (p : ServiceProfile) (existing : List DbMatchRow) (notices : List Notice)
    (semScore : Notice → ℚ) (radar : Notice → RadarResult) : List DbMatchRow :=
  mergeMatches existing (computedRecords p existing notices semScore radar)

/-! ## Claim-side definitions

`nearestCycleSpec` is written from the specification's words, *not* from
the source, to compare the two (the source takes the first candidate in
ascending order, the spec asks for the nearest). -/

/-- Modelled from the spec: "snapping (years since most-recent award) to
the nearest of {1,2,3,5} within ±0.75" — the candidate within 0.75 whose
distance to `y` is smallest (first wins on a tie). -/
def nearestCycleSpec (y : ℚ) : Option ℕ :=
  (cycleCandidates.filter (fun c : ℕ => decide (|y - (c : ℚ)| ≤ 3/4))).foldl
    (fun best c =>
      match best with
      | none => some c
      | some b => if |y - (c : ℚ)| < |y - (b : ℚ)| then some c else some b) none

/-- Equality of every `notice_match` column except the two Tier-2 ones. -/
def sameNonDeepFields (a b : DbMatchRow) : Prop :=
  a.orgId = b.orgId ∧ a.noticeId = b.noticeId ∧ a.score = b.score ∧
  a.scoreSemantic = b.scoreSemantic ∧ a.scoreDomain = b.scoreDomain ∧
  a.scoreGeo = b.scoreGeo ∧ a.scoreTheme = b.scoreTheme ∧
  a.feedbackStatus = b.feedbackStatus ∧ a.riskFlags = b.riskFlags ∧
  a.checklist = b.checklist ∧ a.recommendationReasons = b.recommendationReasons

/-! ## Concrete instances used by witnesses and counterexamples -/

/-- An empty radar result (a notice whose buyer has no history). -/
def noRadar : RadarResult := ⟨false, 0, none, none, none, [], none⟩

/-- A bare `notice_match` row with no Tier-2 verdict. -/
def exampleMatchRow : DbMatchRow :=
  ⟨"org-1", "ocds-1", 0, 0, 0, 0, 0, "REVIEW", ⟨none, none, false, false, none⟩, [], [], none, none⟩

/-- A `notice_match` row carrying a Tier-2 PASS verdict and rationale. -/
def examplePassRow : DbMatchRow :=
  ⟨"org-1", "ocds-x1", 1/2, 0, 0, 0, 0, "GO", ⟨none, none, false, false, none⟩, [], [],
    some ("PASS"), some ("Strong delivery evidence.")⟩

/-- A `notice_match` row with verdict GO (for the alert demotion witness). -/
def exampleGoRow : DbMatchRow :=
  ⟨"org-1", "ocds-2", 7/10, 0, 0, 0, 0, "GO", ⟨none, none, false, false, none⟩, [],
    ["Initial matching looks good."], none, none⟩

/-- A local charity profile: income £250 000, region london. -/
def exampleProfile : ServiceProfile :=
  ⟨"org-1", "Local Charity", some 250000, .asList ["london"], ["85311100"], [], []⟩

/-- A £2M services notice with no lots (scenario 1 of the spec). -/
def exampleBigNotice : Notice :=
  ⟨"ocds-big", "Framework", "large services framework", some ("b-1"), some 2000000,
    none, [], [], [], ["85311000"], [], none, some ("Services")⟩

/-- A notice priced at exactly 40% of `exampleProfile`'s income. -/
def exampleEqNotice : Notice :=
  ⟨"ocds-eq", "Small Tender", "services", some ("b-1"), some 100000,
    none, [], [], [], ["85311000"], [], none, some ("Services")⟩

/-- One historical award row, published on day 0, won by Acme Ltd. -/
def exampleHist : List HistRow := [⟨some 0, [⟨[⟨some ("Acme Ltd")⟩]⟩]⟩]

end JanetContracts

namespace JanetContracts

/-! # Theorems -/

/-! ## C9 — buyer-name normalisation -/

/-- C9 counterexample: the claim that two buyer names differing only in
an internal whitespace run produce the same slug is false — internal runs
are not canonicalised, so `"A  B"` and `"A B"` get different slugs. -/
theorem C9_counterexample :
    (normalizeBuyer (some ("A  B"))).2 ≠ (normalizeBuyer (some ("A B"))).2 := by
  decide

/-- C9 (amended): normalisation strips surrounding whitespace only (no
canonicalisation of internal runs), and the upsert slug is the lowercase
stripped name with each space replaced by a hyphen; consequently names
differing only in internal whitespace runs can produce different slugs
(`"A  B" ↦ "a--b"`). -/
theorem C9_normalize_buyer (raw : String) :
    (normalizeBuyer (some raw)).1 = stripStr raw ∧
    (normalizeBuyer (some raw)).2 = replaceSpacesWithHyphens (lowerStr (stripStr raw)) ∧
    (normalizeBuyer (some ("A  B"))).2 = "a--b" :=
  ⟨rfl, rfl, by decide⟩

/-! ## C10 — theme-score denominator -/

/-- C10: the theme-score denominator is the set of stems obtained by
mapping the profile's themes through `THEME_MAPPING`; an unmapped theme
contributes to neither side of the ratio, and a profile whose every theme
is unmapped scores the neutral 0.5, exactly like a profile listing no
themes at all. -/
theorem C10_theme_denominator (p : ServiceProfile) (nu : Finset String) (t : String) :
    (charityUkcatCodes p = (p.ukcatThemes.filterMap themeLookup).toFinset)
    ∧ (themeLookup t = none →
        scoreThemeCalc (charityUkcatCodes { p with ukcatThemes := p.ukcatThemes ++ [t] }) nu =
          scoreThemeCalc (charityUkcatCodes p) nu)
    ∧ ((∀ th ∈ p.ukcatThemes, themeLookup th = none) →
        scoreThemeCalc (charityUkcatCodes p) nu = 1/2 ∧
        scoreThemeCalc (charityUkcatCodes { p with ukcatThemes := [] }) nu = 1/2) := by
  refine ⟨rfl, ?_, ?_⟩
  · intro ht
    have : charityUkcatCodes { p with ukcatThemes := p.ukcatThemes ++ [t] } =
        charityUkcatCodes p := by
      simp [charityUkcatCodes, List.filterMap_append, ht]
    rw [this]
  · intro hall
    have hnil : p.ukcatThemes.filterMap themeLookup = [] := by
      simp [List.filterMap_eq_nil_iff]
      exact fun th hth => hall th hth
    constructor
    · simp [scoreThemeCalc, charityUkcatCodes, hnil]
    · simp [scoreThemeCalc, charityUkcatCodes]

/-- C10 witness: a profile listing only the unmapped theme `"Zzz"` gets
the neutral theme score. -/
theorem C10_witness :
    themeLookup ("Zzz") = none ∧
    scoreThemeCalc (charityUkcatCodes ⟨"o", "n", none, .absent, [], [], ["Zzz"]⟩) ∅ = 1/2 :=
  ⟨by decide, ((C10_theme_denominator ⟨"o", "n", none, .absent, [], [], ["Zzz"]⟩ ∅ "").2.2
    (by intro th hth; simp at hth; subst hth; decide)).1⟩

end JanetContracts


namespace JanetContracts

/-! ## C5 — material-change detection -/

/-- C5: `Diff(old, new)` reports exactly three kinds of material change —
deadline (both non-null and different), value (both present, old
non-zero, relative change above 10%), notice type (new type present and
different from the stored one) — and diffing a notice against its own
stored values returns the empty change set (surfaced as `None`). -/
theorem C5_diff_changes (old : StoredNotice) (newData : NewNoticeData) :
    ((detectChanges old newData).deadline ≠ none ↔
      ∃ od nd, old.deadlineDate = some od ∧ newData.deadlineDate = some nd ∧ od ≠ nd)
    ∧ ((detectChanges old newData).value ≠ none ↔
      ∃ ov nv, old.valueAmount = some ov ∧ newData.valueAmount = some nv ∧
        ov ≠ 0 ∧ |nv - ov| / ov > 1/10)
    ∧ ((detectChanges old newData).typeChange ≠ none ↔
      ∃ nt, newData.noticeType = some nt ∧ nt ≠ "" ∧ old.noticeType ≠ some nt)
    ∧ checkForChanges old (selfData old) = none := by
  refine ⟨?_, ?_, ?_, ?_⟩
  · cases hnd : newData.deadlineDate with
    | none => simp [detectChanges, hnd]
    | some nd =>
      cases hod : old.deadlineDate with
      | none => simp [detectChanges, hnd, hod]
      | some od =>
        by_cases h : nd = od <;>
          simp [detectChanges, hnd, hod, h, eq_comm]
  · cases hnv : newData.valueAmount with
    | none => simp [detectChanges, hnv]
    | some nv =>
      cases hov : old.valueAmount with
      | none => simp [detectChanges, hnv, hov]
      | some ov =>
        by_cases hz : ov = 0
        · simp [detectChanges, hnv, hov, hz]
        · by_cases hgt : |nv - ov| / ov > 1/10 <;>
            simp [detectChanges, hnv, hov, hz, hgt]
  · cases hnt : newData.noticeType with
    | none => simp [detectChanges, hnt]
    | some nt =>
      by_cases he : nt = ""
      · simp [detectChanges, hnt, he]
      · by_cases ho : old.noticeType = some nt <;>
          simp [detectChanges, hnt, he, ho]
  · have hd : (detectChanges old (selfData old)).deadline = none := by
      cases hod : old.deadlineDate <;> simp [detectChanges, selfData, hod]
    have hv : (detectChanges old (selfData old)).value = none := by
      cases hov : old.valueAmount with
      | none => simp [detectChanges, selfData, hov]
      | some ov =>
        by_cases hz : ov = 0 <;> simp [detectChanges, selfData, hov, hz]
    have ht : (detectChanges old (selfData old)).typeChange = none := by
      cases hot : old.noticeType <;> simp [detectChanges, selfData, hot]
    simp [checkForChanges, hd, hv, ht]

/-! ## C7 — Tier-2 write-back -/

/-- C7 counterexample: a selected match whose OCID is missing from the
LLM response map is left untouched — its `deep_verdict` stays null — and
is not defaulted to a FAIL verdict as the claim states. -/
theorem C7_counterexample :
    (applyDeepResults [exampleMatchRow] []).map (·.deepVerdict) = [none] ∧
    (none : Option String) ≠ some ("FAIL") := by
  constructor
  · rfl
  · decide

/-- C7 (amended): the Tier-2 write-back touches only the `deep_verdict`
and `deep_rationale` columns of the selected matches; an entry present
(and truthy) in the response map but lacking a `verdict` key is defaulted
to FAIL with the entry's own rationale (possibly null — no diagnostic
text is added); a match whose OCID is missing from the map is left
entirely untouched; and on a run-wide LLM failure the analyzer returns an
empty map, so no writes occur. -/
theorem C7_deep_review (rows : List DbMatchRow) (results : List (String × LLMEntry)) :
    (results = [] → applyDeepResults rows results = rows)
    ∧ (∀ m ∈ rows, ∃ m2 ∈ applyDeepResults rows results,
        sameNonDeepFields m m2 ∧
        (results.find? (fun r => r.1 == m.noticeId) = none → m2 = m) ∧
        (∀ pr, results.find? (fun r => r.1 == m.noticeId) = some pr → entryTruthy pr.2 = true →
          m2.deepVerdict = some (pr.2.verdict.getD ("FAIL")) ∧
          m2.deepRationale = pr.2.rationale ∧
          (pr.2.verdict = none → m2.deepVerdict = some ("FAIL")))) := by
  constructor
  · intro h; subst h; simp [applyDeepResults]
  · intro m hm
    refine ⟨(match results.find? (fun r => r.1 == m.noticeId) with
      | some (_, e) =>
          if entryTruthy e then
            { m with deepVerdict := some (e.verdict.getD ("FAIL")), deepRationale := e.rationale }
          else m
      | none => m), ?_, ?_, ?_, ?_⟩
    · exact List.mem_map.mpr ⟨m, hm, rfl⟩
    · cases hf : results.find? (fun r => r.1 == m.noticeId) with
      | none => simp [sameNonDeepFields]
      | some pr =>
        obtain ⟨k, e⟩ := pr
        by_cases ht : entryTruthy e <;> simp [ht, sameNonDeepFields]
    · intro hf; rw [hf]
    · intro pr hf htr
      rw [hf]
      obtain ⟨k, e⟩ := pr
      simp only at htr
      refine ⟨by simp [htr], by simp [htr], ?_⟩
      intro hv
      have hv2 : e.verdict = none := hv
      simp [htr, hv2]

/-- C7 witness: one selected match, a truthy response entry without a
`verdict` key — the stored verdict defaults to FAIL with the entry's
rationale. -/
theorem C7_witness :
    ∃ m2 ∈ applyDeepResults [exampleMatchRow] [("ocds-1", ⟨none, some ("unclear fit")⟩)],
      m2.deepVerdict = some ("FAIL") ∧ m2.deepRationale = some ("unclear fit") := by
  obtain ⟨m2, hmem, -, -, hpr⟩ :=
    (C7_deep_review [exampleMatchRow] [("ocds-1", ⟨none, some ("unclear fit")⟩)]).2
      exampleMatchRow (by simp)
  obtain ⟨h1, h2, -⟩ := hpr ("ocds-1", ⟨none, some ("unclear fit")⟩) (by rfl) (by decide)
  exact ⟨m2, hmem, h1, h2⟩

end JanetContracts

namespace JanetContracts

/-! ## C4 — national classification and geo gate -/

/-- C4: a profile is national iff its income exceeds £5M or its regions
include "national"/"united kingdom"/"uk" case-insensitively; a national
profile scores 1 on overlap or when the notice declares no regions and
0.25 (still passing) otherwise; a local profile scores 1 on overlap, 0.5
when the notice declares no regions, and is rejected when the notice
declares regions with no overlap. -/
theorem C4_geo_gate (p : ServiceProfile) (cr nr : List String) :
    (isNationalCharity p = true ↔
      (∃ inc, p.latestIncome = some inc ∧ inc > 5000000) ∨
      (∃ r ∈ extractCharityRegions p.serviceRegions,
        lowerStr r ∈ (["national", "united kingdom", "uk"] : List String)))
    ∧ geoGate true cr nr = some (if geoOverlapB nr cr || nr.isEmpty then 1 else 1/4)
    ∧ (geoOverlapB nr cr = true → geoGate false cr nr = some 1)
    ∧ (nr = [] → geoGate false cr nr = some (1/2))
    ∧ (nr ≠ [] → geoOverlapB nr cr = false → geoGate false cr nr = none) := by
  refine ⟨?_, ?_, ?_, ?_, ?_⟩
  · cases hinc : p.latestIncome with
    | none =>
      simp [isNationalCharity, hinc, List.any_eq_true, List.elem_iff]
    | some inc =>
      simp only [isNationalCharity, hinc, Bool.or_eq_true, Bool.and_eq_true,
        decide_eq_true_eq, List.any_eq_true, List.elem_iff, Option.some.injEq]
      constructor
      · rintro (⟨-, hgt⟩ | h)
        · exact Or.inl ⟨inc, rfl, hgt⟩
        · exact Or.inr h
      · rintro (⟨i, hi, hgt⟩ | h)
        · cases hi
          exact Or.inl ⟨ne_of_gt (lt_trans (by norm_num) hgt), hgt⟩
        · exact Or.inr h
  · simp [geoGate]
  · intro hov
    have hne : nr.isEmpty = false := by
      cases nr with
      | nil => simp [geoOverlapB] at hov
      | cons a l => simp
    simp [geoGate, hov, hne]
  · intro h; subst h; simp [geoGate, geoOverlapB]
  · intro hne hov
    have hne2 : nr.isEmpty = false := by
      cases nr with
      | nil => exact absurd rfl hne
      | cons a l => simp
    simp [geoGate, hov, hne2]

/-- C4 witness: the local example profile overlaps a london notice
(geo-score 1), passes with no notice regions (0.5), and is rejected on a
disjoint region list; a national classification holds for a profile with
region "UK". -/
theorem C4_witness :
    geoGate false ["london"] ["london"] = some 1 ∧
    geoGate false ["london"] [] = some (1/2) ∧
    geoGate false ["london"] ["wales"] = none ∧
    isNationalCharity ⟨"o", "n", none, .asList ["UK"], [], [], []⟩ = true := by
  refine ⟨?_, ?_, ?_, ?_⟩
  · exact (C4_geo_gate ⟨"o", "n", none, .absent, [], [], []⟩ ["london"] ["london"]).2.2.1
      (by decide)
  · exact (C4_geo_gate ⟨"o", "n", none, .absent, [], [], []⟩ ["london"] []).2.2.2.1 rfl
  · exact (C4_geo_gate ⟨"o", "n", none, .absent, [], [], []⟩ ["london"] ["wales"]).2.2.2.2
      (by decide) (by decide)
  · exact (C4_geo_gate ⟨"o", "n", none, .asList ["UK"], [], [], []⟩ [] []).1.mpr
      (Or.inr ⟨"UK", by decide, by decide⟩)

end JanetContracts

namespace JanetContracts

/-! ## C6 — processing a material change -/

/-- One human message is built per present change key. -/
theorem length_changeMsgs (c : ChangeSet) : (changeMsgs c).length = numChangeKeys c := by
  unfold changeMsgs numChangeKeys
  cases c.deadline <;> cases c.value <;> cases c.typeChange <;> simp

/-- C6: for every OCID and non-empty change set, `process_change` creates
exactly one MATERIAL_CHANGE alert per change key for every match tied to
the notice, appends one human message per change to each match's
recommendation reasons, and demotes a GO verdict to REVIEW exactly when
the change set contains a value change (other verdicts are untouched). -/
theorem C6_process_change (ocid : String) (c : ChangeSet) (rows : List DbMatchRow)
    (_hne : numChangeKeys c ≠ 0) :
    ((processChange ocid c rows).2.length = rows.length * numChangeKeys c)
    ∧ (∀ a ∈ (processChange ocid c rows).2,
        a.alertType = "MATERIAL_CHANGE" ∧ a.noticeId = ocid ∧ a.severity = "warning")
    ∧ ((processChange ocid c rows).1.length = rows.length)
    ∧ (∀ m ∈ rows, ∃ m2 ∈ (processChange ocid c rows).1,
        m2.recommendationReasons = m.recommendationReasons ++ changeMsgs c ∧
        (c.value.isSome → m.feedbackStatus = "GO" → m2.feedbackStatus = "REVIEW") ∧
        (¬ (c.value.isSome ∧ m.feedbackStatus = "GO") →
          m2.feedbackStatus = m.feedbackStatus)) := by
  refine ⟨?_, ?_, ?_, ?_⟩
  · simp only [processChange, List.length_flatMap]
    have hmap : rows.map (List.length ∘ fun m => (processOneMatch ocid c m).2) =
        rows.map (fun _ => numChangeKeys c) := by
      apply List.map_congr_left
      intro m _
      simp [processOneMatch, length_changeMsgs]
    rw [hmap]
    simp [List.map_const', List.sum_replicate, Nat.mul_comm]
  · intro a ha
    simp only [processChange, List.mem_flatMap] at ha
    obtain ⟨m, -, hmem⟩ := ha
    simp only [processOneMatch, List.mem_map] at hmem
    obtain ⟨msg, -, rfl⟩ := hmem
    exact ⟨rfl, rfl, rfl⟩
  · simp [processChange]
  · intro m hm
    refine ⟨(processOneMatch ocid c m).1, List.mem_map.mpr ⟨m, hm, rfl⟩, ?_, ?_, ?_⟩
    · simp [processOneMatch]
    · intro hv hgo
      simp [processOneMatch, hv, hgo]
    · intro hng
      simp only [processOneMatch]
      rw [if_neg hng]

/-- C6 witness: a GO match hit by a value change gets one alert, the
appended value message, and a REVIEW verdict. -/
theorem C6_witness :
    ((processChange ("ocds-2") ⟨none, some (100000, 200000), none⟩ [exampleGoRow]).2.length = 1) ∧
    (∃ m2 ∈ (processChange ("ocds-2") ⟨none, some (100000, 200000), none⟩ [exampleGoRow]).1,
      m2.recommendationReasons =
        exampleGoRow.recommendationReasons ++ changeMsgs ⟨none, some (100000, 200000), none⟩ ∧
      m2.feedbackStatus = "REVIEW") := by
  have h := C6_process_change ("ocds-2") ⟨none, some (100000, 200000), none⟩ [exampleGoRow]
    (by decide)
  refine ⟨?_, ?_⟩
  · rw [h.1]; rfl
  · obtain ⟨m2, hmem, hr, hd, -⟩ := h.2.2.2 exampleGoRow (by simp)
    exact ⟨m2, hmem, hr, hd rfl rfl⟩

end JanetContracts

namespace JanetContracts

/-! ## C3 — value gate -/

/-- C3: with positive charity income I, a candidate whose total value
exceeds 0.4·I and none of whose lots has value (amountGross, else amount)
at most 0.4·I is rejected at the value gate, so no `NoticeMatch` record
is written for it; and a total value exactly equal to 0.4·I never
triggers the gate (the comparison is strict). -/
theorem C3_value_gate (p : ServiceProfile) (existing : List DbMatchRow)
    (semScore : ℚ) (radar : RadarResult) (n : Notice) :
    (p.latestIncome.getD 0 > 0 →
      n.valueAmount.getD 0 > (p.latestIncome.getD 0) * (2/5) →
      (∀ lot ∈ n.lots, lotVal lot > (p.latestIncome.getD 0) * (2/5)) →
      computeMatch p existing semScore radar n = none)
    ∧ (n.valueAmount = some ((p.latestIncome.getD 0) * (2/5)) →
        valueGateRejects (p.latestIncome.getD 0) n = false) := by
  constructor
  · intro hI hV hlots
    have hsuit : suitableLots (p.latestIncome.getD 0) n = [] := by
      unfold suitableLots
      split
      · rfl
      · apply List.filter_eq_nil_iff.mpr
        intro lot hlot
        simp only [Bool.and_eq_true, decide_eq_true_eq, not_and]
        intro _hpos
        exact not_le.mpr (hlots lot hlot)
    have hrej : valueGateRejects (p.latestIncome.getD 0) n = true := by
      unfold valueGateRejects
      simp [hsuit, hI, hV]
    have hvg : valueGate (p.latestIncome.getD 0) n = none := by
      unfold valueGate
      simp [hrej]
    unfold computeMatch
    cases hv2 : vcseGate n with
    | none => simp
    | some v2 => simp [hvg]
  · intro hval
    unfold valueGateRejects
    simp [hval]

/-- C3 witness: a £250 000-income charity against a lot-free £2M notice —
the value gate rejects and no record is produced; a notice priced at
exactly £100 000 (= 0.4 × £250 000) does not trigger the gate. -/
theorem C3_witness :
    computeMatch exampleProfile [] 0 noRadar exampleBigNotice = none ∧
    valueGateRejects (exampleProfile.latestIncome.getD 0) exampleEqNotice = false := by
  constructor
  · refine (C3_value_gate exampleProfile [] 0 noRadar exampleBigNotice).1 ?_ ?_ ?_
    · norm_num [exampleProfile]
    · norm_num [exampleProfile, exampleBigNotice]
    · intro lot hlot
      simp [exampleBigNotice] at hlot
  · refine (C3_value_gate exampleProfile [] 0 noRadar exampleEqNotice).2 ?_
    norm_num [exampleProfile, exampleEqNotice]

end JanetContracts

namespace JanetContracts

/-! ## C8 — renewal-radar cycle estimation -/

/-- C8 counterexample: a most recent award 584 days (≈1.6 years) old —
the source snaps to the *first* candidate within 0.75 (cycle 1), while
the claim's "nearest of {1,2,3,5}" is cycle 2 (distance 0.4 < 0.6). -/
theorem C8_counterexample :
    (enrich (some ("buyer-1")) exampleHist 584).estimatedCycleYears = some 1 ∧
    nearestCycleSpec (yearsSinceOf 584) = some 2 ∧ (1 : ℕ) ≠ 2 := by
  have hys : yearsSinceOf 584 = 8/5 := by
    unfold yearsSinceOf
    rw [round_eq]
    norm_num
  have hloop : estimateCycleLoop (8/5) = some 1 := by
    unfold estimateCycleLoop cycleCandidates
    rw [List.find?_cons_of_pos]
    simp only [decide_eq_true_eq]
    push_cast
    rw [abs_sub_lt_iff]
    norm_num
  refine ⟨?_, ?_, by norm_num⟩
  · have ht : truthyStr (some ("buyer-1")) = true := by decide
    have hfm : List.filterMap (fun x : HistRow => x.publicationDate)
        [(⟨some 0, [⟨[⟨some ("Acme Ltd")⟩]⟩]⟩ : HistRow)] = [0] := by decide
    unfold enrich
    rw [ht]
    simp only [Bool.not_eq_true, exampleHist, hfm, List.max?, List.foldl]
    norm_num [hys, hloop]
  · rw [hys]
    unfold nearestCycleSpec cycleCandidates
    have a1 : |(8:ℚ)/5 - ((1:ℕ) : ℚ)| = 3/5 := by
      push_cast
      rw [abs_of_pos] <;> norm_num
    have a2 : |(8:ℚ)/5 - ((2:ℕ) : ℚ)| = 2/5 := by
      push_cast
      rw [abs_of_neg] <;> norm_num
    have a3 : |(8:ℚ)/5 - ((3:ℕ) : ℚ)| = 7/5 := by
      push_cast
      rw [abs_of_neg] <;> norm_num
    have a5 : |(8:ℚ)/5 - ((5:ℕ) : ℚ)| = 17/5 := by
      push_cast
      rw [abs_of_neg] <;> norm_num
    have d1 : (decide ((3:ℚ)/5 ≤ 3/4)) = true := by
      rw [decide_eq_true_eq]; norm_num
    have d2 : (decide ((2:ℚ)/5 ≤ 3/4)) = true := by
      rw [decide_eq_true_eq]; norm_num
    have d3 : (decide ((7:ℚ)/5 ≤ 3/4)) = false := by
      rw [decide_eq_false_iff_not]; norm_num
    have d5 : (decide ((17:ℚ)/5 ≤ 3/4)) = false := by
      rw [decide_eq_false_iff_not]; norm_num
    simp only [List.filter, a1, a2, a3, a5, d1, d2, d3, d5, List.foldl]
    rw [if_pos]
    norm_num

/-- C8 (amended): the enrichment is total (the source catches every
exception), and when the buyer's history carries publication dates it
sets `estimated_cycle_years` by snapping the (rounded) years since the
most recent award to the *first* of 1, 2, 3, 5 — scanned in that
ascending order — whose distance is strictly below 0.75, defaulting to 3;
a most recent award about 2.2 years old still yields cycle 2. -/
theorem C8_cycle_estimation (buyerId : Option String) (history : List HistRow) (nowDays : ℤ)
    (hb : truthyStr buyerId = true) (hh : history.isEmpty = false)
    (d : ℤ) (hd : (history.filterMap (·.publicationDate)).max? = some d) :
    (enrich buyerId history nowDays).estimatedCycleYears =
      some ((estimateCycleLoop (yearsSinceOf (nowDays - d))).getD 3) ∧
    (estimateCycleLoop (yearsSinceOf 804)).getD 3 = 2 := by
  constructor
  · unfold enrich
    rw [hb]
    simp only [Bool.not_eq_true, hh, hd]
    simp
  · have hys : yearsSinceOf 804 = 11/5 := by
      unfold yearsSinceOf
      rw [round_eq]
      norm_num
    rw [hys]
    have hn1 : (decide (|(11:ℚ)/5 - ((1:ℕ) : ℚ)| < 3/4)) = false := by
      rw [decide_eq_false_iff_not, not_lt]
      push_cast
      rw [abs_of_pos] <;> norm_num
    have hp2 : (decide (|(11:ℚ)/5 - ((2:ℕ) : ℚ)| < 3/4)) = true := by
      rw [decide_eq_true_eq]
      push_cast
      rw [abs_sub_lt_iff]
      norm_num
    unfold estimateCycleLoop cycleCandidates
    simp only [List.find?, hn1, hp2]
    rfl

/-- C8 witness: the example history (award on day 0) enriched 804 days
later estimates a 2-year cycle. -/
theorem C8_witness :
    (enrich (some ("buyer-1")) exampleHist 804).estimatedCycleYears = some 2 := by
  have h := C8_cycle_estimation (some ("buyer-1")) exampleHist 804 (by decide) (by decide)
    0 (by decide)
  have hz : (804 : ℤ) - 0 = 804 := by norm_num
  rw [h.1, hz, h.2]

end JanetContracts

namespace JanetContracts

/-! ## C2 — verdict rules -/

/-- C2: for every candidate that reaches the scoring stage (i.e. for
which a record is written), the stored verdict follows the rules: a
persisted Tier-2 PASS forces GO and FAIL forces NO-GO (overriding all
else); otherwise a TUPE hit in the text forces REVIEW; otherwise GO
exactly when the total score strictly exceeds 0.65. -/
theorem C2_verdict_rules (p : ServiceProfile) (existing : List DbMatchRow)
    (semScore : ℚ) (radar : RadarResult) (n : Notice) (rec : DbMatchRow)
    (h : computeMatch p existing semScore radar n = some rec) :
    rec.feedbackStatus =
      (if deepVerdictOf existing n.ocid = some ("PASS") then ("GO")
       else if deepVerdictOf existing n.ocid = some ("FAIL") then ("NO-GO")
       else if containsStr (lowerStr (n.title ++ " " ++ n.description)) ("tupe") then ("REVIEW")
       else if rec.score > 13/20 then ("GO") else ("REVIEW")) := by
  simp only [computeMatch] at h
  cases h2 : vcseGate n with
  | none => rw [h2] at h; exact absurd h (by simp)
  | some v2 =>
    obtain ⟨isV, isS, rs2⟩ := v2
    rw [h2] at h
    cases h3 : valueGate (p.latestIncome.getD 0) n with
    | none => rw [h3] at h; exact absurd h (by simp)
    | some rs3 =>
      rw [h3] at h
      cases h4 : geoGate (isNationalCharity p)
          ((extractCharityRegions p.serviceRegions).map lowerStr) (noticeRegions n) with
      | none => rw [h4] at h; exact absurd h (by simp)
      | some sg =>
        rw [h4] at h
        cases h5 : cpvGate (cpvStems p.inferredCpvCodes) (cpvStems n.cpvCodes) with
        | none => rw [h5] at h; exact absurd h (by simp)
        | some sd =>
          rw [h5] at h
          cases h6 : (exclusionMatched (p.exclusionKeywords.map lowerStr) n).isEmpty with
          | false => rw [h6] at h; exact absurd h (by simp)
          | true =>
            rw [h6] at h
            simp only [Bool.not_true, Bool.false_eq_true, if_false, Option.some.injEq] at h
            subst h
            simp only [statusCalc]
            by_cases hpass : deepVerdictOf existing n.ocid = some ("PASS")
            · simp [hpass]
            · by_cases hfail : deepVerdictOf existing n.ocid = some ("FAIL")
              · simp [hpass, hfail]
              · by_cases hct :
                  containsStr (lowerStr (n.title ++ " " ++ n.description)) ("tupe") = true
                · have htr : truthyStr (some ("Staff transfer (TUPE) detected.")) = true := by
                    decide
                  simp [hpass, hfail, hct, htr]
                · have hfalse :
                    containsStr (lowerStr (n.title ++ " " ++ n.description)) ("tupe") = false := by
                      simpa using hct
                  simp [hpass, hfail, hfalse, truthyStr]

end JanetContracts

namespace JanetContracts

/-- C2 witness: the example profile against the £100 000 notice produces
a record whose verdict follows the stated rules (no Tier-2 verdict, no
TUPE, total ≤ 0.65 ⇒ REVIEW). -/
theorem C2_witness :
    ∃ rec, computeMatch exampleProfile [] 0 noRadar exampleEqNotice = some rec ∧
      rec.feedbackStatus =
        (if deepVerdictOf [] exampleEqNotice.ocid = some ("PASS") then ("GO")
         else if deepVerdictOf [] exampleEqNotice.ocid = some ("FAIL") then ("NO-GO")
         else if containsStr
             (lowerStr (exampleEqNotice.title ++ " " ++ exampleEqNotice.description)) ("tupe")
           then ("REVIEW")
         else if rec.score > 13/20 then ("GO") else ("REVIEW")) := by
  obtain ⟨rec, hrec⟩ :
      ∃ rec, computeMatch exampleProfile [] 0 noRadar exampleEqNotice = some rec := by
    have hv2 : vcseGate exampleEqNotice =
        some (false, false, ["Generic suitability (No specific SME/VCSE flags)."]) := by decide
    have hrej : valueGateRejects (exampleProfile.latestIncome.getD 0) exampleEqNotice = false := by
      unfold valueGateRejects
      rw [show exampleEqNotice.valueAmount.getD 0 = 100000 from rfl,
        show exampleProfile.latestIncome.getD 0 = 250000 from rfl,
        decide_eq_false (by norm_num : ¬((100000:ℚ) > 250000 * (2/5)))]
      simp
    have ht : truthyQ (some (100000:ℚ)) = true := by
      simp only [truthyQ]
      exact decide_eq_true (by norm_num)
    have hval : valueGate (exampleProfile.latestIncome.getD 0) exampleEqNotice =
        some ["Tender value is within 40% of annual income."] := by
      unfold valueGate
      rw [hrej]
      simp only [Bool.false_eq_true, if_false]
      simp [suitableLots, exampleEqNotice, ht]
    have hnat : isNationalCharity exampleProfile = false := by
      unfold isNationalCharity
      simp only [exampleProfile]
      rw [decide_eq_false (by norm_num : ¬((250000:ℚ) > 5000000))]
      simp only [Bool.and_false, Bool.false_or]
      decide
    have hnr : noticeRegions exampleEqNotice = [] := by decide
    have hgeo : geoGate (isNationalCharity exampleProfile)
        ((extractCharityRegions exampleProfile.serviceRegions).map lowerStr)
        (noticeRegions exampleEqNotice) = some (1/2) := by
      rw [hnat, hnr]
      simp [geoGate, geoOverlapB]
    have hcpvPos : (cpvStems exampleProfile.inferredCpvCodes).Nonempty ∧
        (cpvStems exampleEqNotice.cpvCodes).Nonempty := by decide
    have hcpvInter :
        ¬(cpvStems exampleEqNotice.cpvCodes ∩ cpvStems exampleProfile.inferredCpvCodes = ∅) := by
      decide
    have hcpv : cpvGate (cpvStems exampleProfile.inferredCpvCodes)
        (cpvStems exampleEqNotice.cpvCodes) = some 1 := by
      unfold cpvGate
      rw [if_pos hcpvPos, if_neg hcpvInter]
    have hexc : (exclusionMatched (exampleProfile.exclusionKeywords.map lowerStr)
        exampleEqNotice).isEmpty = true := by decide
    simp only [computeMatch, hv2, hval, hgeo, hcpv, hexc, Bool.not_true, Bool.false_eq_true,
      if_false]
    exact ⟨_, rfl⟩
  exact ⟨rec, hrec, C2_verdict_rules exampleProfile [] 0 noRadar exampleEqNotice rec hrec⟩

end JanetContracts

namespace JanetContracts

/-! ## C1 — Tier-2 preservation across recalculation -/

/-- C1: after a recalculation, every pre-existing row with a non-null
Tier-2 verdict still exists with `deep_verdict` and `deep_rationale`
unchanged — refreshed only in the mechanical fields (via
`applyMechanical`) when re-matched, byte-identical otherwise — and a
pre-existing row whose OCID is not in the newly computed match set is
deleted only if its `deep_verdict` is null. -/
theorem C1_tier2_preservation (p : ServiceProfile) (existing : List DbMatchRow)
    (notices : List Notice) (semScore : Notice → ℚ) (radar : Notice → RadarResult)
    (hnd : (existing.map (fun x => x.noticeId)).Nodup)
    (em : DbMatchRow) (hm : em ∈ existing) :
    (em.deepVerdict ≠ none →
      ∃ r ∈ calculateMatches p existing notices semScore radar,
        r.noticeId = em.noticeId ∧ r.deepVerdict = em.deepVerdict ∧
        r.deepRationale = em.deepRationale ∧
        (match (computedRecords p existing notices semScore radar).find?
            (fun m => m.noticeId == em.noticeId) with
         | some m => r = applyMechanical em m
         | none => r = em))
    ∧ (em.deepVerdict = none →
        em.noticeId ∉ (computedRecords p existing notices semScore radar).map
          (fun x => x.noticeId) →
        ∀ r ∈ calculateMatches p existing notices semScore radar, r.noticeId ≠ em.noticeId) := by
  constructor
  · intro hdv
    unfold calculateMatches mergeMatches
    cases hfind : (computedRecords p existing notices semScore radar).find?
        (fun m => m.noticeId == em.noticeId) with
    | some m =>
      refine ⟨applyMechanical em m, ?_, by simp [applyMechanical], by simp [applyMechanical],
        by simp [applyMechanical], ?_⟩
      · apply List.mem_append_left
        apply List.mem_filterMap.mpr
        exact ⟨em, hm, by rw [hfind]⟩
      · rfl
    | none =>
      refine ⟨em, ?_, rfl, rfl, rfl, ?_⟩
      · apply List.mem_append_left
        apply List.mem_filterMap.mpr
        refine ⟨em, hm, ?_⟩
        rw [hfind, if_neg hdv]
      · rfl
  · intro hdvnone hnotin r hr
    unfold calculateMatches mergeMatches at hr
    rcases List.mem_append.mp hr with hup | hadd
    · obtain ⟨em2, hmem2, hfe⟩ := List.mem_filterMap.mp hup
      cases hfind2 : (computedRecords p existing notices semScore radar).find?
          (fun m => m.noticeId == em2.noticeId) with
      | some m =>
        rw [hfind2] at hfe
        injection hfe with hfe
        subst hfe
        intro hcontra
        simp only [applyMechanical] at hcontra
        have hm2 : m ∈ computedRecords p existing notices semScore radar :=
          List.mem_of_find?_eq_some hfind2
        have hpm := List.find?_some hfind2
        simp only [beq_iff_eq] at hpm
        have heq : em2 = em := List.inj_on_of_nodup_map hnd hmem2 hm hcontra
        subst heq
        exact hnotin (List.mem_map.mpr ⟨m, hm2, hpm⟩)
      | none =>
        rw [hfind2] at hfe
        by_cases hd2 : em2.deepVerdict = none
        · rw [if_pos hd2] at hfe
          exact absurd hfe (by simp)
        · rw [if_neg hd2] at hfe
          injection hfe with hfe
          subst hfe
          intro hcontra
          have heq : em2 = em := List.inj_on_of_nodup_map hnd hmem2 hm hcontra
          subst heq
          exact hd2 hdvnone
    · have hrN : r ∈ computedRecords p existing notices semScore radar :=
        List.mem_of_mem_filter hadd
      intro hcontra
      exact hnotin (List.mem_map.mpr ⟨r, hrN, hcontra⟩)

/-- C1 witness: a PASS-verdict row survives a recalculation over an empty
notice snapshot with both Tier-2 columns intact. -/
theorem C1_witness :
    ∃ r ∈ calculateMatches exampleProfile [examplePassRow] [] (fun _ => 0) (fun _ => noRadar),
      r.noticeId = examplePassRow.noticeId ∧ r.deepVerdict = some ("PASS") ∧
      r.deepRationale = some ("Strong delivery evidence.") := by
  obtain ⟨r, hmem, h1, h2, h3, -⟩ :=
    (C1_tier2_preservation exampleProfile [examplePassRow] [] (fun _ => 0) (fun _ => noRadar)
      (by simp) examplePassRow (by simp)).1 (by simp [examplePassRow])
  exact ⟨r, hmem, h1, by rw [h2]; rfl, by rw [h3]; rfl⟩

end JanetContracts

namespace JanetContracts

/-- C5 witness: a 15% value lift is flagged as a material value change,
and a concrete self-diff returns the empty change set. -/
theorem C5_witness :
    (detectChanges ⟨some 10, some 100000, some ("contractNotice")⟩
        ⟨some 10, some 115000, some ("contractNotice")⟩).value ≠ none ∧
    checkForChanges ⟨some 10, some 100000, some ("contractNotice")⟩
      (selfData ⟨some 10, some 100000, some ("contractNotice")⟩) = none := by
  have h := C5_diff_changes ⟨some 10, some 100000, some ("contractNotice")⟩
    ⟨some 10, some 115000, some ("contractNotice")⟩
  refine ⟨h.2.1.mpr ⟨100000, 115000, rfl, rfl, by norm_num, by norm_num⟩, ?_⟩
  exact (C5_diff_changes ⟨some 10, some 100000, some ("contractNotice")⟩
    ⟨some 10, some 100000, some ("contractNotice")⟩).2.2.2

/-- C9 witness: the test-suite buyer name normalises to the expected
canonical name and slug. -/
theorem C9_witness :
    (normalizeBuyer (some ("  Test Buyer  "))).1 = "Test Buyer" ∧
    (normalizeBuyer (some ("  Test Buyer  "))).2 = "test-buyer" := by
  have h := C9_normalize_buyer ("  Test Buyer  ")
  exact ⟨by rw [h.1]; decide, by rw [h.2.1]; decide⟩

end JanetContracts
